import Mathlib

/-
Verification development for pytmx (mason_original.py).

This file gives a shallow embedding of the graph-construction core of
src/pytmx/mason_original.py: dynamic Python values are modelled by the
`PyVal` type, raised exceptions by `Except PyError`, and each translated
function keeps the name of its Python source where Lean allows it.
External standard-library calls (zlib, gzip, base64) are parameters of
the embedding (`PyExt`); everything defined in the repository itself is
translated directly from the source.

Python floats are modelled by exact rationals (`Rat`): the embedded code
only parses decimal literals, adds offsets and compares, which agrees
with IEEE semantics on the inputs exercised here; scientific notation,
inf/nan and underscore digit separators are not modelled.
-/

set_option maxHeartbeats 1000000

/-- Dynamic Python values as they occur in the token attribute machinery:
None, bool, int, float (exact rational model), str, and the point-list
values produced by the `read_points` caster. -/
inductive PyVal : Type where
  | none : PyVal
  | bool : Bool → PyVal
  | int : Int → PyVal
  | float : Rat → PyVal
  | str : String → PyVal
  | points : List (List Rat) → PyVal
deriving DecidableEq, Repr

/-- Python exceptions raised by the embedded code.  `unsupportedFeature`
carries the positional arguments of the repository's `UnsupportedFeature`
exception; `exception` is a bare `Exception(msg)`. -/
inductive PyError : Type where
  | unsupportedFeature : List String → PyError
  | typeError : PyError
  | valueError : PyError
  | attributeError : PyError
  | overflowError : PyError
  | structError : PyError
  | indexError : PyError
  | nameError : PyError
  | keyError : PyError
  | exception : String → PyError
deriving DecidableEq, Repr

/-- The intermediate payloads flowing through the tile-data pipeline:
the raw text, a bytes object (list of byte values), or the unevaluated
lazy `map(int, ...)` iterator produced by `decode_csv` (whose integer
parsing only happens on iteration, which the surrounding code never
reaches; the unsplit tokens are therefore stored unevaluated). -/
inductive PyData : Type where
  | str : String → PyData
  | bytes : List Nat → PyData
  | lazyInts : List String → PyData
deriving DecidableEq, Repr

/-- TileFlags namedtuple. -/
structure TileFlags : Type where
  flipped_horizontally : Bool
  flipped_vertically : Bool
  flipped_diagonally : Bool
deriving DecidableEq, Repr

/- ----------------------------------------------------------------
   Dictionary helpers (Python dict with string keys, insertion order)
   ---------------------------------------------------------------- -/

/-- Lookup in a string-keyed dict modelled as an association list. -/
def pyDictGet (l : List (String × PyVal)) (k : String) : Option PyVal :=
  (l.find? (fun p => p.1 == k)).map (fun p => p.2)

/-- Assignment `d[k] = v` on a string-keyed dict: replaces in place if the
key exists, else appends (insertion order preserved). -/
def pyDictSet (l : List (String × PyVal)) (k : String) (v : PyVal) :
    List (String × PyVal) :=
  if l.any (fun p => p.1 == k) then
    l.map (fun p => if p.1 == k then (k, v) else p)
  else l ++ [(k, v)]

/-- Assignment on a dict whose keys are arbitrary Python values
(`PropertiesToken.dictionary`). -/
def pyDictSetV (l : List (PyVal × PyVal)) (k v : PyVal) :
    List (PyVal × PyVal) :=
  if l.any (fun p => p.1 == k) then
    l.map (fun p => if p.1 == k then (k, v) else p)
  else l ++ [(k, v)]

/- ----------------------------------------------------------------
   String helpers (structural implementations of the str methods used,
   so that concrete evaluations reduce in the kernel)
   ---------------------------------------------------------------- -/

/-- Python `str.strip()` with no argument: remove leading and trailing
whitespace. -/
def pyStrip (s : String) : String :=
  String.mk (((s.data.dropWhile Char.isWhitespace).reverse.dropWhile
    Char.isWhitespace).reverse)

/-- Split a character list at every separator character (Python
`str.split(sep)` semantics: empty pieces are kept, the empty input gives
one empty piece). -/
def splitPredCharList (p : Char → Bool) : List Char → List (List Char)
  | [] => [[]]
  | ch :: rest =>
    match splitPredCharList p rest with
    | [] => [[]]
    | t :: ts => if p ch then [] :: t :: ts else (ch :: t) :: ts

/-- Python `s.split(",")`. -/
def pySplitComma (s : String) : List String :=
  (splitPredCharList (fun ch => ch == ',') s.data).map String.mk

/-- Python `str.lower()` (over the character range occurring in tags). -/
def pyLower (s : String) : String :=
  String.mk (s.data.map Char.toLower)

/- ----------------------------------------------------------------
   Literal parsing (Python int() / float() on strings)
   ---------------------------------------------------------------- -/

/-- Digits-only parse; `Option.none` unless the character list is nonempty
and all decimal digits. -/
def parseDigits : List Char → Option Nat
  | [] => Option.none
  | cs =>
    if cs.all Char.isDigit then
      Option.some (cs.foldl (fun acc c => 10 * acc + (c.toNat - 48)) 0)
    else Option.none

/-- Split an optional leading sign from a character list, returning
(negative?, rest). -/
def splitSign : List Char → Bool × List Char
  | '+' :: r => (false, r)
  | '-' :: r => (true, r)
  | r => (false, r)

/-- Python `int(s)` on a string: strips surrounding whitespace, then an
optional sign followed by decimal digits; anything else raises ValueError. -/
def pyIntParse (s : String) : Except PyError Int :=
  let (neg, cs) := splitSign (pyStrip s).data
  match parseDigits cs with
  | Option.some n => Except.ok (if neg then -(n : Int) else (n : Int))
  | Option.none => Except.error PyError.valueError

/-- Python `float(s)` on simple decimal literals: optional sign, digits with
an optional fractional part (at least one digit overall).  Exponents and
inf/nan are not modelled. -/
def pyFloatParse (s : String) : Except PyError Rat :=
  let (neg, cs) := splitSign (pyStrip s).data
  let signed : Rat → Except PyError Rat := fun q =>
    Except.ok (if neg then -q else q)
  match splitPredCharList (fun ch => ch == '.') cs with
  | [as] =>
    match parseDigits as with
    | Option.some n => signed (n : Rat)
    | Option.none => Except.error PyError.valueError
  | [as, bs] =>
    match as, bs with
    | [], [] => Except.error PyError.valueError
    | _, _ =>
      let ip : Option Nat := if as.isEmpty then Option.some 0 else parseDigits as
      let fp : Option Rat :=
        if bs.isEmpty then Option.some 0
        else (parseDigits bs).map (fun n => (n : Rat) / ((10 : Rat) ^ bs.length))
      match ip, fp with
      | Option.some n, Option.some f => signed ((n : Rat) + f)
      | _, _ => Except.error PyError.valueError
  | _ => Except.error PyError.valueError

/-- Python `str.split()` with no argument: split on whitespace runs,
dropping empty tokens. -/
def pySplitWs (s : String) : List String :=
  ((splitPredCharList Char.isWhitespace s.data).filter
    (fun t => t ≠ [])).map String.mk

/- ----------------------------------------------------------------
   Casters (attribute schema coercion targets)
   ---------------------------------------------------------------- -/

/-- The `cls` casters that appear in attribute schemas: the builtins
str/int/float/bool, the repository's `read_points`, and `noop`. -/
inductive Caster : Type where
  | str : Caster
  | int : Caster
  | float : Caster
  | bool : Caster
  | readPoints : Caster
  | noop : Caster
deriving DecidableEq, Repr

/-- Python truthiness of a modelled value. -/
def pyTruthy : PyVal → Bool
  | PyVal.none => false
  | PyVal.bool b => b
  | PyVal.int i => i != 0
  | PyVal.float q => q != 0
  | PyVal.str s => s ≠ ""
  | PyVal.points l => l ≠ []

/-- Python `str(v)` for the values reachable here (float formatting is a
model of repr; no claim depends on it). -/
def pyStr : PyVal → String
  | PyVal.none => "None"
  | PyVal.bool b => if b then "True" else "False"
  | PyVal.int i => toString i
  | PyVal.float q => toString q
  | PyVal.str s => s
  | PyVal.points _ => "<points>"

/-- Python `int(v)`: identity on ints, 0/1 on bools, truncation toward zero
on floats, string parse on strings; TypeError otherwise. -/
def pyIntCast : PyVal → Except PyError Int
  | PyVal.int i => Except.ok i
  | PyVal.bool b => Except.ok (if b then 1 else 0)
  | PyVal.float q => Except.ok (if 0 ≤ q then q.floor else q.ceil)
  | PyVal.str s => pyIntParse s
  | _ => Except.error PyError.typeError

/-- Python `float(v)`. -/
def pyFloatCast : PyVal → Except PyError Rat
  | PyVal.float q => Except.ok q
  | PyVal.int i => Except.ok (i : Rat)
  | PyVal.bool b => Except.ok (if b then 1 else 0)
  | PyVal.str s => pyFloatParse s
  | _ => Except.error PyError.typeError

/-- `read_points(text)`: split on whitespace, split each token on commas and
parse every component as a float; a tuple may have any arity (the source
does not enforce pairs).  Called on a non-string the attribute access
`text.split` raises AttributeError. -/
def read_points (text : String) : Except PyError (List (List Rat)) :=
  (pySplitWs text).mapM (fun tok => (pySplitComma tok).mapM pyFloatParse)

/-- Apply a declared caster to a resolved raw value (only called on
non-None values, mirroring `Token.start`). -/
def applyCaster : Caster → PyVal → Except PyError PyVal
  | Caster.str, v => Except.ok (PyVal.str (pyStr v))
  | Caster.int, v => (pyIntCast v).map PyVal.int
  | Caster.float, v => (pyFloatCast v).map PyVal.float
  | Caster.bool, v => Except.ok (PyVal.bool (pyTruthy v))
  | Caster.readPoints, PyVal.str s => (read_points s).map PyVal.points
  | Caster.readPoints, _ => Except.error PyError.attributeError
  | Caster.noop, v => Except.ok v

/- ----------------------------------------------------------------
   Geometry helpers (move_points, calc_bounds)
   ---------------------------------------------------------------- -/

/-- `move_points(points, x, y)`: offset every point; `i[0]` / `i[1]` raise
IndexError on tuples with fewer than two components, extra components are
dropped. -/
def move_points (points : List (List Rat)) (x y : Rat) :
    Except PyError (List (Rat × Rat)) :=
  points.mapM (fun i =>
    match i with
    | a :: b :: _ => Except.ok (a + x, b + y)
    | _ => Except.error PyError.indexError)

/-- One iteration of the `calc_bounds` loop: note the elif chains of the
source (`if x < x1: ... elif x > x2: ...`). -/
def calcBoundsStep (st : Rat × Rat × Rat × Rat) (p : Rat × Rat) :
    Rat × Rat × Rat × Rat :=
  let (x1, x2, y1, y2) := st
  let (x, y) := p
  let x1a := if x < x1 then x else x1
  let x2a := if x < x1 then x2 else if x2 < x then x else x2
  let y1a := if y < y1 then y else y1
  let y2a := if y < y1 then y2 else if y2 < y then y else y2
  (x1a, x2a, y1a, y2a)

/-- `calc_bounds(points)`: starts all four accumulators at 0 (the loop
unpacks pairs, so the argument is typed as a pair list) and returns
`(abs x1 + abs x2, abs y1 + abs y2)`. -/
def calc_bounds (points : List (Rat × Rat)) : Rat × Rat :=
  let st := points.foldl calcBoundsStep (0, 0, 0, 0)
  (|st.1| + |st.2.1|, |st.2.2.1| + |st.2.2.2|)

/-- Origin-relative extent bounds in the spec's words: on each axis, the
absolute extent below 0 plus the absolute extent above 0, measured from
the origin rather than from the point set's own minimum. -/
def bounds_spec (points : List (Rat × Rat)) : Rat × Rat :=
  let xs := points.map Prod.fst
  let ys := points.map Prod.snd
  (|xs.foldl min 0| + |xs.foldl max 0|, |ys.foldl min 0| + |ys.foldl max 0|)

/- ----------------------------------------------------------------
   Global-ID codec (decode_gid)
   ---------------------------------------------------------------- -/

def GID_TRANS_FLIPX : Nat := 1 <<< 31
def GID_TRANS_FLIPY : Nat := 1 <<< 30
def GID_TRANS_ROT : Nat := 1 <<< 29

/-- `decode_gid(raw_gid)`: the source computes
`raw_gid & ~(GID_TRANS_FLIPX | GID_TRANS_FLIPY | GID_TRANS_ROT)` over
Python's arbitrary-precision integers, i.e. it clears bits 31, 30 and 29
and keeps every other bit; on a natural number that is exactly the
subtraction of each of those bits when set.  The TileFlags value also
computed in the body is bound to a local variable and discarded: the
function returns only `gid`. -/
def decode_gid (raw_gid : Nat) : Nat :=
  raw_gid - (if raw_gid.testBit 31 then GID_TRANS_FLIPX else 0)
          - (if raw_gid.testBit 30 then GID_TRANS_FLIPY else 0)
          - (if raw_gid.testBit 29 then GID_TRANS_ROT else 0)

/-- The `TileFlags` value computed (and then discarded) inside
`decode_gid`: `raw_gid & GID_TRANS_FLIPX == GID_TRANS_FLIPX` tests bit 31,
and so on for bits 30 and 29. -/
def decode_gid_flags (raw_gid : Nat) : TileFlags :=
  TileFlags.mk (raw_gid.testBit 31) (raw_gid.testBit 30) (raw_gid.testBit 29)

/- ----------------------------------------------------------------
   Tile-data decode pipeline
   ---------------------------------------------------------------- -/

/-- The Python standard-library transforms used by the pipeline, external
to the repository: `zlib.decompress`, gzip decompression and
`base64.b64decode` (the last may also raise `binascii.Error` on bad
input, covered by the `Except`). -/
structure PyExt : Type where
  zlib : List Nat → Except PyError (List Nat)
  gzip : List Nat → Except PyError (List Nat)
  b64 : String → Except PyError (List Nat)

/-- `decode_base64(data)`: strip surrounding whitespace, then b64decode.
Every reachable call receives the raw text content (`decode` runs first in
`unpack`), so only the string case is live; b64decode of any of the other
payload shapes raises TypeError. -/
def decode_base64 (ext : PyExt) : PyData → Except PyError PyData
  | PyData.str s => (ext.b64 (pyStrip s)).map PyData.bytes
  | _ => Except.error PyError.typeError

/-- The token list `"".join(i.strip() for i in data.strip()).split(",")`:
every whitespace character of the text is removed, then the result is
split on commas (Python `split(",")` keeps empty tokens). -/
def csvTokens (s : String) : List String :=
  pySplitComma (String.mk ((pyStrip s).data.filter (fun c => !c.isWhitespace)))

/-- `decode_csv(data)`: returns the lazy `map(int, ...)` object without
parsing any integer (parsing would only happen on iteration, which the
caller never reaches).  On a non-string payload the generator's per-item
`i.strip()` (an int for bytes input) raises AttributeError. -/
def decode_csv : PyData → Except PyError PyData
  | PyData.str s => Except.ok (PyData.lazyInts (csvTokens s))
  | _ => Except.error PyError.attributeError

/-- The `decode` transform built by `get_data_xform("decode_", ...)`:
a falsy transform name returns None (modelled `Option.none`); otherwise
`globals()["decode_" + xform]` is looked up — the module defines
`decode_base64`, `decode_csv` and also `decode_gid` (which, applied to a
text or bytes payload, raises TypeError at its bitwise and) — and a
missing name raises `UnsupportedFeature(xform)`.  A non-string truthy
name fails at the string concatenation with TypeError. -/
def pyDecode (ext : PyExt) (data : PyData) (xform : PyVal) :
    Except PyError (Option PyData) :=
  if pyTruthy xform then
    match xform with
    | PyVal.str s =>
      match s with
      | "base64" => (decode_base64 ext data).map Option.some
      | "csv" => (decode_csv data).map Option.some
      | "gid" => Except.error PyError.typeError
      | _ => Except.error (PyError.unsupportedFeature [s])
    | _ => Except.error PyError.typeError
  else Except.ok Option.none

/-- The `decompress` transform (names `zlib` and `gzip` are defined):
both stdlib decompressors require a bytes payload and raise TypeError on
text or on the lazy csv iterator. -/
def pyDecompress (ext : PyExt) (data : PyData) (xform : PyVal) :
    Except PyError (Option PyData) :=
  if pyTruthy xform then
    match xform with
    | PyVal.str s =>
      match s with
      | "zlib" =>
        match data with
        | PyData.bytes b => (ext.zlib b).map (fun r => Option.some (PyData.bytes r))
        | _ => Except.error PyError.typeError
      | "gzip" =>
        match data with
        | PyData.bytes b => (ext.gzip b).map (fun r => Option.some (PyData.bytes r))
        | _ => Except.error PyError.typeError
      | _ => Except.error (PyError.unsupportedFeature [s])
    | _ => Except.error PyError.typeError
  else Except.ok Option.none

/-- `unpack(data, encoding, compression)`: run `decode` then `decompress`;
each step that returns a non-None result replaces the payload. -/
def unpack (ext : PyExt) (data : PyData) (encoding compression : PyVal) :
    Except PyError PyData := do
  let t ← pyDecode ext data encoding
  let data := t.getD data
  let t2 ← pyDecompress ext data compression
  pure (t2.getD data)

/-- The loop of `unroll_layer_data` over `range(0, len(data), 4)`: each
chunk is `struct.unpack_from("<L", data, i)` — four little-endian bytes —
followed by `decode_gid`; a trailing chunk shorter than four bytes makes
`unpack_from` raise `struct.error`. -/
def unrollBytes : List Nat → Except PyError (List Nat)
  | [] => Except.ok []
  | b0 :: b1 :: b2 :: b3 :: rest => do
    let r ← unrollBytes rest
    Except.ok (decode_gid (b0 + 256 * (b1 + 256 * (b2 + 256 * b3))) :: r)
  | _ => Except.error PyError.structError

/-- `unroll_layer_data(data)`: `len(data)` then `unpack_from` requires a
bytes payload.  On text, `len` succeeds but the first `unpack_from`
raises TypeError (an empty text has no iterations and yields `[]`); the
lazy csv iterator has no `len()` at all, so it raises TypeError
immediately. -/
def unroll_layer_data : PyData → Except PyError (List Nat)
  | PyData.bytes b => unrollBytes b
  | PyData.str s => if s = "" then Except.ok [] else Except.error PyError.typeError
  | PyData.lazyInts _ => Except.error PyError.typeError

/-- A single element conversion of `array.array("H", ...)`: accepts ints
(bools are ints) in the unsigned-16-bit range; other values raise
TypeError, out-of-range ints raise OverflowError. -/
def arrayHItem : PyVal → Except PyError Nat
  | PyVal.int i =>
    if i < 0 ∨ 65535 < i then Except.error PyError.overflowError
    else Except.ok i.toNat
  | PyVal.bool b => Except.ok (if b then 1 else 0)
  | _ => Except.error PyError.typeError

/-- `array.array("H", l)`: left-to-right conversion of every element. -/
def arrayH : List PyVal → Except PyError (List Nat)
  | [] => Except.ok []
  | v :: rest =>
    match arrayHItem v with
    | Except.error e => Except.error e
    | Except.ok n =>
      match arrayH rest with
      | Except.error e => Except.error e
      | Except.ok r => Except.ok (n :: r)

/-- Python slice index normalisation for `l[a:b]`: negative indices count
from the end, and both ends are clamped to the list. -/
def pySliceIdx (n : Nat) (a : Int) : Nat :=
  if a < 0 then ((n : Int) + a).toNat else min a.toNat n

/-- Python list slice `l[a:b]`. -/
def pySlice {α : Type} (l : List α) (a b : Int) : List α :=
  (l.take (pySliceIdx l.length b)).drop (pySliceIdx l.length a)

/-- `range(h)` as a list of ints (empty when `h ≤ 0`). -/
def pyRange (h : Int) : List Int :=
  (List.range h.toNat).map Int.ofNat

/-- `__index__` conversion used by `range()` and by slice arithmetic: ints
and bools convert; every other value (None, float, str, ...) ends in a
TypeError on this code path. -/
def pyIndex : PyVal → Except PyError Int
  | PyVal.int i => Except.ok i
  | PyVal.bool b => Except.ok (if b then 1 else 0)
  | _ => Except.error PyError.typeError

/-- The generator body of `rowify`, one row per index of `range(h)`:
`array.array("H", gids[i * w : i * w + w])`.  The width is consumed inside
the loop (so a bad width value only raises once the loop runs). -/
def rowifyGo (gids : List PyVal) (wv : PyVal) :
    List Int → Except PyError (List (List Nat))
  | [] => Except.ok []
  | i :: rest =>
    match pyIndex wv with
    | Except.error e => Except.error e
    | Except.ok w =>
      match arrayH (pySlice gids (i * w) (i * w + w)) with
      | Except.error e => Except.error e
      | Except.ok row =>
        match rowifyGo gids wv rest with
        | Except.error e => Except.error e
        | Except.ok rows => Except.ok (row :: rows)

/-- `rowify(gids, w, h)`: slice the flat id list into `h` rows of width
`w` with plain Python slicing — no element-count check of any kind. -/
def rowify (gids : List PyVal) (wv hv : PyVal) :
    Except PyError (List (List Nat)) :=
  match pyIndex hv with
  | Except.error e => Except.error e
  | Except.ok h => rowifyGo gids wv (pyRange h)

/- ----------------------------------------------------------------
   Attribute schemas
   ---------------------------------------------------------------- -/

/-- The `Attribute` namedtuple: (name, cls, default, comment). -/
structure Attr : Type where
  name : String
  cls : Caster
  default : PyVal
  comment : String
deriving DecidableEq, Repr

/-- The shared `Color` attribute (named `ColorAttr` here to avoid clashing
with library names). -/
def ColorAttr : Attr := Attr.mk "color" Caster.str PyVal.none "color of the thing"

def Opacity : Attr := Attr.mk "opacity" Caster.float (PyVal.float 1) "opacity"

def Visible : Attr := Attr.mk "visible" Caster.bool (PyVal.bool true) "visible, or not"

/-- The declared `attributes` tuple of each token class, keyed by the
registry feature name.  `TerrainToken` and `TextToken` define `Attributes`
with a capital A, which the base class never reads, so their effective
schema is the base class's empty list; classes with no declaration
(Animation, Ellipse, Point, Properties, Template, Terraintypes,
TilesetSource and the base Token) are empty as well. -/
def schemaOf : String → List Attr
  | "Chunk" =>
    [Attr.mk "x" Caster.int PyVal.none "x tile coord of chunk",
     Attr.mk "y" Caster.int PyVal.none "y tile coord of chunk",
     Attr.mk "width" Caster.int PyVal.none "tile width of chunk",
     Attr.mk "height" Caster.int PyVal.none "x tile height of chunk"]
  | "Data" =>
    [Attr.mk "encoding" Caster.str PyVal.none "base64, csv, None",
     Attr.mk "compression" Caster.str PyVal.none "gzip, zip, None"]
  | "Frame" =>
    [Attr.mk "tileid" Caster.int PyVal.none "local id within parent tileset",
     Attr.mk "duration" Caster.int PyVal.none "duration in milliseconds"]
  | "Grid" =>
    [Attr.mk "name" Caster.str PyVal.none "name of group",
     Attr.mk "offsetx" Caster.int (PyVal.int 0) "pixel offset, applied to all descendants",
     Attr.mk "offsety" Caster.int (PyVal.int 0) "pixel offset, applied to all descendants",
     Visible, Opacity]
  | "Group" =>
    [Attr.mk "name" Caster.str PyVal.none "name of group",
     Attr.mk "offsetx" Caster.int (PyVal.int 0) "pixel offset, applied to all descendants",
     Attr.mk "offsety" Caster.int (PyVal.int 0) "pixel offset, applied to all descendants",
     Visible, Opacity]
  | "Imagelayer" =>
    [Attr.mk "name" Caster.str (PyVal.str "ImageLayer") "name of layer",
     Attr.mk "offsetx" Caster.int (PyVal.int 0) "not used, per spec.",
     Attr.mk "offsety" Caster.int (PyVal.int 0) "not used, per spec.",
     Visible, Opacity]
  | "Image" =>
    [Attr.mk "format" Caster.str PyVal.none "png, jpg, etc",
     Attr.mk "source" Caster.str PyVal.none "path, relative to the map",
     Attr.mk "trans" Caster.str PyVal.none "transparent color",
     Attr.mk "width" Caster.int PyVal.none "pixel width, optional",
     Attr.mk "height" Caster.int PyVal.none "pixel height, optional"]
  | "Layer" =>
    [Attr.mk "name" Caster.str (PyVal.str "TileLayer") "name of layer",
     Attr.mk "width" Caster.int PyVal.none "tile width",
     Attr.mk "height" Caster.int PyVal.none "tile height",
     Attr.mk "offsetx" Caster.int (PyVal.int 0) "Not used, per spec",
     Attr.mk "offsety" Caster.int (PyVal.int 0) "Not used, per spec",
     Visible, Opacity]
  | "Map" =>
    [Attr.mk "version" Caster.str PyVal.none "TMX format version",
     Attr.mk "tiledversion" Caster.str PyVal.none "software version",
     Attr.mk "orientation" Caster.str (PyVal.str "orthogonal") "map orientation",
     Attr.mk "renderorder" Caster.str (PyVal.str "right-down") "order of tiles to be drawn",
     Attr.mk "compressionlevel" Caster.int (PyVal.int (-1))
       "The compression level to use for tile layer data",
     Attr.mk "width" Caster.int PyVal.none "map width in tiles",
     Attr.mk "height" Caster.int PyVal.none "map height in tiles",
     Attr.mk "tilewidth" Caster.int PyVal.none "pixel width of tile",
     Attr.mk "tileheight" Caster.int PyVal.none "pixel height of tile",
     Attr.mk "hexsidelength" Caster.float PyVal.none "[hex map] length of hex tile edge",
     Attr.mk "staggeraxis" Caster.str PyVal.none "[hex map] x/y axis is staggered",
     Attr.mk "staggerindex" Caster.str PyVal.none "[hex map] even/odd staggered axis",
     Attr.mk "backgroundcolor" Caster.str PyVal.none "background color of map",
     Attr.mk "nextlayerid" Caster.int PyVal.none "ID of the next layer",
     Attr.mk "nextobjectid" Caster.int PyVal.none "the next gid available to use",
     Attr.mk "infinite" Caster.bool (PyVal.bool false) "infinite map"]
  | "Objectgroup" =>
    [Attr.mk "name" Caster.str PyVal.none "name of group",
     Attr.mk "x" Caster.float (PyVal.int 0) "not used, per spec",
     Attr.mk "y" Caster.float (PyVal.int 0) "not used, per spec",
     Attr.mk "width" Caster.int PyVal.none "not used, per spec",
     Attr.mk "height" Caster.int PyVal.none "not used, per spec",
     ColorAttr, Visible, Opacity]
  | "Object" =>
    [Attr.mk "name" Caster.str PyVal.none "name of object",
     Attr.mk "id" Caster.int PyVal.none "unique id assigned to object",
     Attr.mk "type" Caster.str PyVal.none "defined by editor",
     Attr.mk "x" Caster.float PyVal.none "tile x coordinate",
     Attr.mk "y" Caster.float PyVal.none "tile y coordinate",
     Attr.mk "width" Caster.float PyVal.none "pixel width",
     Attr.mk "height" Caster.float PyVal.none "pixel height",
     Attr.mk "rotation" Caster.float (PyVal.int 0) "rotation",
     Attr.mk "gid" Caster.int PyVal.none "reference a tile id",
     Attr.mk "template" Caster.str PyVal.none "path, optional",
     Visible, Opacity]
  | "Polygon" =>
    [Attr.mk "points" Caster.readPoints PyVal.none "coordinates of the polygon"]
  | "Polyline" =>
    [Attr.mk "points" Caster.readPoints PyVal.none "coordinates of the polyline"]
  | "Property" =>
    [Attr.mk "type" Caster.noop PyVal.none "type of the property",
     Attr.mk "name" Caster.noop PyVal.none "name of property",
     Attr.mk "value" Caster.noop PyVal.none "value"]
  | "TileOffset" =>
    [Attr.mk "x" Caster.int PyVal.none "horizontal (left) tile offset",
     Attr.mk "y" Caster.int PyVal.none "vertical (down) tile offset"]
  | "Tileset" =>
    [Attr.mk "firstgid" Caster.int PyVal.none "first gid of tileset",
     Attr.mk "source" Caster.str PyVal.none "filename of external data or None",
     Attr.mk "name" Caster.str PyVal.none "name of tileset",
     Attr.mk "tilewidth" Caster.int PyVal.none "max width in tiles",
     Attr.mk "tileheight" Caster.int PyVal.none "max height in tiles",
     Attr.mk "spacing" Caster.int (PyVal.int 0) "pixels between each tile",
     Attr.mk "margin" Caster.int (PyVal.int 0) "pixels between tile and image edge",
     Attr.mk "tilecount" Caster.int PyVal.none "number of tiles in tileset",
     Attr.mk "columns" Caster.int PyVal.none "number of columns",
     Attr.mk "objectalignment" Caster.str PyVal.none "allignment of tile objects"]
  | "Tile" =>
    [Attr.mk "id" Caster.int PyVal.none "local id",
     Attr.mk "gid" Caster.int PyVal.none "global id",
     Attr.mk "type" Caster.str PyVal.none "defined in editor",
     Attr.mk "terrain" Caster.str PyVal.none "optional",
     Attr.mk "probability" Caster.float PyVal.none "optional"]
  | _ => []

/- ----------------------------------------------------------------
   Token instances
   ---------------------------------------------------------------- -/

/-- The non-recursive state of a token instance: its feature name (the
class is `kind + "Token"`), the coerced attribute dict, and the
type-specific scalar fields set by the various initializers
(`properties`, `editorsettings`, the loaded image handle of `ImageToken`,
the decoded grid of `DataToken`, the `dictionary` of `PropertiesToken`,
the translated `points` and `ellipse` marker of `ObjectToken`). -/
structure TokData : Type where
  kind : String
  attrib : List (String × PyVal)
  properties : List (PyVal × PyVal)
  editorsettings : List (PyVal × PyVal)
  imageHandle : Option PyVal
  dataGrid : Option (List (List Nat))
  dictionary : List (PyVal × PyVal)
  points : List (Rat × Rat)
  ellipse : Bool

/-- A token instance: the scalar state plus the child-token containers
(`tiles`, `chunks`, `tilesets`, `layers`, `objectgroups`, `objects`,
`frames`, `terrains`, the `group` childtype list, the `image` child of
Imagelayer/Tileset/Tile, and the `data` child of LayerToken). -/
inductive Tok : Type where
  | mk : TokData → List Tok → List Tok → List Tok → List Tok → List Tok →
      List Tok → List Tok → List Tok → List Tok → Option Tok → Option Tok → Tok

def Tok.data : Tok → TokData
  | Tok.mk d _ _ _ _ _ _ _ _ _ _ _ => d

def Tok.tiles : Tok → List Tok
  | Tok.mk _ ti _ _ _ _ _ _ _ _ _ _ => ti

def Tok.chunks : Tok → List Tok
  | Tok.mk _ _ ch _ _ _ _ _ _ _ _ _ => ch

def Tok.tilesets : Tok → List Tok
  | Tok.mk _ _ _ ts _ _ _ _ _ _ _ _ => ts

def Tok.layers : Tok → List Tok
  | Tok.mk _ _ _ _ ly _ _ _ _ _ _ _ => ly

def Tok.objectgroups : Tok → List Tok
  | Tok.mk _ _ _ _ _ og _ _ _ _ _ _ => og

def Tok.objects : Tok → List Tok
  | Tok.mk _ _ _ _ _ _ ob _ _ _ _ _ => ob

def Tok.frames : Tok → List Tok
  | Tok.mk _ _ _ _ _ _ _ fr _ _ _ _ => fr

def Tok.terrains : Tok → List Tok
  | Tok.mk _ _ _ _ _ _ _ _ te _ _ _ => te

def Tok.groups : Tok → List Tok
  | Tok.mk _ _ _ _ _ _ _ _ _ gr _ _ => gr

def Tok.image : Tok → Option Tok
  | Tok.mk _ _ _ _ _ _ _ _ _ _ im _ => im

def Tok.dataTok : Tok → Option Tok
  | Tok.mk _ _ _ _ _ _ _ _ _ _ _ dk => dk

def Tok.kind (t : Tok) : String := t.data.kind

def Tok.attrib (t : Tok) : List (String × PyVal) := t.data.attrib

def Tok.withData : Tok → TokData → Tok
  | Tok.mk _ ti ch ts ly og ob fr te gr im dk, d =>
    Tok.mk d ti ch ts ly og ob fr te gr im dk

def Tok.withTiles : Tok → List Tok → Tok
  | Tok.mk d _ ch ts ly og ob fr te gr im dk, ti =>
    Tok.mk d ti ch ts ly og ob fr te gr im dk

def Tok.withChunks : Tok → List Tok → Tok
  | Tok.mk d ti _ ts ly og ob fr te gr im dk, ch =>
    Tok.mk d ti ch ts ly og ob fr te gr im dk

def Tok.withTilesets : Tok → List Tok → Tok
  | Tok.mk d ti ch _ ly og ob fr te gr im dk, ts =>
    Tok.mk d ti ch ts ly og ob fr te gr im dk

def Tok.withLayers : Tok → List Tok → Tok
  | Tok.mk d ti ch ts _ og ob fr te gr im dk, ly =>
    Tok.mk d ti ch ts ly og ob fr te gr im dk

def Tok.withObjectgroups : Tok → List Tok → Tok
  | Tok.mk d ti ch ts ly _ ob fr te gr im dk, og =>
    Tok.mk d ti ch ts ly og ob fr te gr im dk

def Tok.withObjects : Tok → List Tok → Tok
  | Tok.mk d ti ch ts ly og _ fr te gr im dk, ob =>
    Tok.mk d ti ch ts ly og ob fr te gr im dk

def Tok.withFrames : Tok → List Tok → Tok
  | Tok.mk d ti ch ts ly og ob _ te gr im dk, fr =>
    Tok.mk d ti ch ts ly og ob fr te gr im dk

def Tok.withTerrains : Tok → List Tok → Tok
  | Tok.mk d ti ch ts ly og ob fr _ gr im dk, te =>
    Tok.mk d ti ch ts ly og ob fr te gr im dk

def Tok.withImage : Tok → Option Tok → Tok
  | Tok.mk d ti ch ts ly og ob fr te gr _ dk, im =>
    Tok.mk d ti ch ts ly og ob fr te gr im dk

def Tok.withDataTok : Tok → Option Tok → Tok
  | Tok.mk d ti ch ts ly og ob fr te gr im _, dk =>
    Tok.mk d ti ch ts ly og ob fr te gr im dk

/-- Construct a fresh token instance of the given kind: the base
initializer creates empty `attrib` / `properties` dicts, the MapToken
childtypes create the `group` list and `editorsettings` dict, and every
subclass initializer sets its own empty containers — all of which are the
defaults here. -/
def mkToken (kind : String) : Tok :=
  Tok.mk (TokData.mk kind [] [] [] Option.none Option.none [] [] false)
    [] [] [] [] [] [] [] [] [] Option.none Option.none

/- ----------------------------------------------------------------
   Token.start (attribute population)
   ---------------------------------------------------------------- -/

/-- The dict comprehension `{item.name: item for item in attr}`: a later
duplicate name keeps the first occurrence's position but overwrites the
stored triple. -/
def dedupAttrs (l : List Attr) : List Attr :=
  l.foldl (fun acc a =>
    if acc.any (fun b => b.name == a.name) then
      acc.map (fun b => if b.name == a.name then a else b)
    else acc ++ [a]) []

/-- The first loop of `Token.start`: for every declared attribute, take the
raw value when present, else the declared default, pairing each resolved
value with its declaration (`attrib[key] = raw_value`). -/
def resolveAttrs (schema : List Attr) (init : List (String × PyVal)) :
    List (Attr × PyVal) :=
  (dedupAttrs schema).map (fun a => (a, (pyDictGet init a.name).getD a.default))

/-- The second loop of `Token.start`: cast every non-None resolved value
with its declared caster (`attrib[key] = self.attrib_types[key].cls(value)`),
in insertion order; the first failing cast propagates its exception. -/
def castAttrs : List (Attr × PyVal) → Except PyError (List (String × PyVal))
  | [] => Except.ok []
  | (a, v) :: rest =>
    match (if v = PyVal.none then Except.ok v else applyCaster a.cls v) with
    | Except.error e => Except.error e
    | Except.ok v2 =>
      match castAttrs rest with
      | Except.error e => Except.error e
      | Except.ok r => Except.ok ((a.name, v2) :: r)

/-- `Token.start(init, context)`: default-resolution followed by casting,
producing the fully-typed attribute dict. -/
def Token_start (schema : List Attr) (init : List (String × PyVal)) :
    Except PyError (List (String × PyVal)) :=
  castAttrs (resolveAttrs schema init)

/-- The `tiled_property_type` table, as a partial map from the raw `type`
attribute value to a caster (dict lookup misses give `Option.none`). -/
def tiledPropertyCaster : PyVal → Option Caster
  | PyVal.str s =>
    match s with
    | "string" => Option.some Caster.str
    | "int" => Option.some Caster.int
    | "float" => Option.some Caster.float
    | "bool" => Option.some Caster.bool
    | "color" => Option.some Caster.str
    | "file" => Option.some Caster.str
    | _ => Option.none
  | _ => Option.none

/-- The override tail of `PropertyToken.start`: inside a `try` whose
handler catches only KeyError, look up `tiled_property_type[init["type"]]`
and recast `init["value"]`; on any KeyError the handler stores the raw
`init["value"]` — which itself raises an uncaught KeyError when the
`value` key is missing.  Cast failures (e.g. ValueError) are not caught. -/
def PropertyToken_start_extra (attrib : List (String × PyVal))
    (init : List (String × PyVal)) : Except PyError (List (String × PyVal)) :=
  let fallback : Except PyError (List (String × PyVal)) :=
    match pyDictGet init "value" with
    | Option.some w => Except.ok (pyDictSet attrib "value" w)
    | Option.none => Except.error PyError.keyError
  match pyDictGet init "type" with
  | Option.none => fallback
  | Option.some tv =>
    match tiledPropertyCaster tv with
    | Option.none => fallback
    | Option.some c =>
      match pyDictGet init "value" with
      | Option.none => Except.error PyError.keyError
      | Option.some w =>
        match applyCaster c w with
        | Except.error e => Except.error e
        | Except.ok w2 => Except.ok (pyDictSet attrib "value" w2)

/-- Dispatch of the `start` lifecycle call: the base `Token.start` for
every class, followed by the `PropertyToken.start` override tail. -/
def Token_start_dispatch (t : Tok) (init : List (String × PyVal)) :
    Except PyError Tok := do
  let a ← Token_start (schemaOf t.kind) init
  if t.kind = "Property" then do
    let a2 ← PropertyToken_start_extra a init
    Except.ok (t.withData { t.data with attrib := a2 })
  else Except.ok (t.withData { t.data with attrib := a })

/- ----------------------------------------------------------------
   Attribute access (Token.__getattr__)
   ---------------------------------------------------------------- -/

/-- `Token.__getattr__(name)`: look the name up in the coerced attribute
dict; a miss raises AttributeError.  The separately stored `properties`
dict is never consulted. -/
def Token_getattr (attrib : List (String × PyVal)) (name : String) :
    Except PyError PyVal :=
  match pyDictGet attrib name with
  | Option.some v => Except.ok v
  | Option.none => Except.error PyError.attributeError

/-- Attribute read `token.name` for names that are schema attributes (not
instance attributes), as used throughout the lifecycle code: Python's
normal lookup misses and falls through to `Token.__getattr__`. -/
def pyGetattrAttr (t : Tok) (name : String) : Except PyError PyVal :=
  Token_getattr t.attrib name

/-- The namespace view of a token instance used to model full attribute
lookup: the names bound in the instance dict by the initializers and
lifecycle code, plus the two dicts themselves. -/
structure TokenNamespace : Type where
  instanceAttrs : List String
  attrib : List (String × PyVal)
  properties : List (String × PyVal)

/-- Result of a full `getattr` on a token. -/
inductive AttrLookup : Type where
  | instanceHit : AttrLookup
  | value : PyVal → AttrLookup
  | error : PyError → AttrLookup
deriving DecidableEq, Repr

/-- Full Python attribute lookup on a token: real instance attributes win;
otherwise `Token.__getattr__` consults only the `attrib` dict and raises
AttributeError on a miss — there is no fallback to `properties`. -/
def getattrFull (t : TokenNamespace) (name : String) : AttrLookup :=
  if t.instanceAttrs.contains name then AttrLookup.instanceHit
  else
    match Token_getattr t.attrib name with
    | Except.ok v => AttrLookup.value v
    | Except.error e => AttrLookup.error e

/- ----------------------------------------------------------------
   DataToken.end and the other end-lifecycle overrides
   ---------------------------------------------------------------- -/

/-- `DataToken.end(content, context)` after the parent width/height reads:
a None content raises AttributeError at `content.strip()`; non-whitespace
text goes through `unpack`, `unroll_layer_data` and `rowify`; otherwise a
nonempty `tiles` list is reshaped from the per-tile `gid` attributes; with
neither, the bare `Exception("no layer data?")` is raised. -/
def DataToken_end (ext : PyExt) (encoding compression : PyVal)
    (tiles : List Tok) (wv hv : PyVal) (content : Option String) :
    Except PyError (List (List Nat)) :=
  match content with
  | Option.none => Except.error PyError.attributeError
  | Option.some s =>
    if pyStrip s ≠ "" then do
      let data ← unpack ext (PyData.str s) encoding compression
      let ids ← unroll_layer_data data
      rowify (ids.map (fun g => PyVal.int (Int.ofNat g))) wv hv
    else if tiles.isEmpty = false then do
      let gids ← tiles.mapM (fun t => pyGetattrAttr t "gid")
      rowify gids wv hv
    else Except.error (PyError.exception "no layer data?")

/-- `ImageToken.end`: builds the default image loader with `self.source`
and stores its result; with the default loader the handle is just
`(filename, None, None)`, modelled by recording the filename. -/
def ImageToken_end (t : Tok) : Except PyError Tok := do
  let src ← pyGetattrAttr t "source"
  Except.ok (t.withData { t.data with imageHandle := Option.some src })

/-- `TilesetToken.load_tiles`: reads tile geometry and the image child's
attributes, builds the two `range`s of the tile grid (TypeError when any
operand is None, ValueError when a step is zero), and enumerates from
`self.firstgid` (TypeError when None) — the loop itself only invokes the
image loader and discards every result, so with the default loader it has
no observable effect. -/
def load_tiles (t : Tok) : Except PyError Tok := do
  let twv ← pyGetattrAttr t "tilewidth"
  let thv ← pyGetattrAttr t "tileheight"
  let img ← (match t.image with
    | Option.none => Except.error PyError.attributeError
    | Option.some i => Except.ok i)
  let wv ← pyGetattrAttr img "width"
  let hv ← pyGetattrAttr img "height"
  let mv ← pyGetattrAttr t "margin"
  let sv ← pyGetattrAttr t "spacing"
  let th ← pyIndex thv
  let _h ← pyIndex hv
  let _m ← pyIndex mv
  let s ← pyIndex sv
  if th + s = 0 then Except.error PyError.valueError
  else do
    let tw ← pyIndex twv
    let _w ← pyIndex wv
    if tw + s = 0 then Except.error PyError.valueError
    else do
      let _path ← pyGetattrAttr img "source"
      let _trans ← pyGetattrAttr img "trans"
      let fgv ← pyGetattrAttr t "firstgid"
      let _fg ← pyIndex fgv
      Except.ok t

/-- `TilesetToken.end`: run the (empty) base end, then `load_tiles` only
for embedded tilesets (`self.source is None`). -/
def TilesetToken_end (t : Tok) : Except PyError Tok := do
  let src ← pyGetattrAttr t "source"
  if src = PyVal.none then load_tiles t else Except.ok t

/-- Dispatch of the `end` lifecycle call.  Only DataToken, ImageToken,
TilesetToken and TilesetSourceToken override the (empty) base method;
`TilesetSourceToken.end` reads the undefined name `source` on its first
line and always raises NameError. -/
def tokenEnd (ext : PyExt) (t : Tok) (text : Option String)
    (parent : Option Tok) : Except PyError Tok :=
  match t.kind with
  | "Data" => do
    let p ← (match parent with
      | Option.none => Except.error PyError.attributeError
      | Option.some p => Except.ok p)
    let wv ← pyGetattrAttr p "width"
    let hv ← pyGetattrAttr p "height"
    let enc ← pyGetattrAttr t "encoding"
    let comp ← pyGetattrAttr t "compression"
    let g ← DataToken_end ext enc comp t.tiles wv hv text
    Except.ok (t.withData { t.data with dataGrid := Option.some g })
  | "Image" => ImageToken_end t
  | "Tileset" => TilesetToken_end t
  | "TilesetSource" => Except.error PyError.nameError
  | _ => Except.ok t

/- ----------------------------------------------------------------
   Token.combine (the add_<tag> dispatch)
   ---------------------------------------------------------------- -/

/-- Numeric coercion inside `i[0] + x`: int/float/bool add to a float;
None or other operands raise TypeError. -/
def pyNum : PyVal → Except PyError Rat
  | PyVal.float q => Except.ok q
  | PyVal.int i => Except.ok (i : Rat)
  | PyVal.bool b => Except.ok (if b then 1 else 0)
  | _ => Except.error PyError.typeError

/-- `ObjectToken.add_polygon` / `add_polyline`: translate the child's
`points` attribute by the object's own position and set the `closed`
attribute.  A None points value raises TypeError when iterated; tuples
shorter than 2 raise IndexError inside `move_points`. -/
def ObjectToken_add_shape (p child : Tok) (closed : Bool) :
    Except PyError Tok := do
  let ptsv ← pyGetattrAttr child "points"
  let xv ← pyGetattrAttr p "x"
  let yv ← pyGetattrAttr p "y"
  let pts ← (match ptsv with
    | PyVal.points l => Except.ok l
    | _ => Except.error PyError.typeError)
  let x ← pyNum xv
  let y ← pyNum yv
  let moved ← move_points pts x y
  let d := p.data
  Except.ok (p.withData
    { d with points := moved,
             attrib := pyDictSet d.attrib "closed" (PyVal.bool closed) })

/-- `Token.combine(child, tag)`: `getattr(self, "add_" + tag)` dispatch.
`add_properties` comes from the base class and is available on every
token; each class's own `add_<tag>` methods are tabulated below; a missing
method raises `UnsupportedFeature(class_name, tag)`, and the explicit
`raise UnsupportedFeature` bodies raise it with no arguments. -/
def Token_combine (p child : Tok) (tag : String) : Except PyError Tok :=
  if tag = "properties" then
    -- base Token.add_properties: self.properties = item.dictionary; the
    -- dictionary instance attribute only exists on PropertiesToken
    if child.kind = "Properties" then
      Except.ok (p.withData { p.data with properties := child.data.dictionary })
    else Except.error PyError.attributeError
  else
    match p.kind, tag with
    | "Animation", "frame" => Except.ok (p.withFrames (p.frames ++ [child]))
    | "Chunk", "tile" => Except.error (PyError.unsupportedFeature [])
    | "Data", "tile" => Except.ok (p.withTiles (p.tiles ++ [child]))
    | "Data", "chunk" => Except.ok (p.withChunks (p.chunks ++ [child]))
    | "Group", "layer" => Except.error (PyError.unsupportedFeature [])
    | "Group", "objectgroup" => Except.error (PyError.unsupportedFeature [])
    | "Group", "imagelayer" => Except.error (PyError.unsupportedFeature [])
    | "Group", "group" => Except.error (PyError.unsupportedFeature [])
    | "Imagelayer", "image" => Except.ok (p.withImage (Option.some child))
    | "Image", "data" => Except.error (PyError.unsupportedFeature [])
    | "Layer", "data" => Except.ok (p.withDataTok (Option.some child))
    | "Map", "tileset" => Except.ok (p.withTilesets (p.tilesets ++ [child]))
    | "Map", "layer" => Except.ok (p.withLayers (p.layers ++ [child]))
    | "Map", "objectgroup" =>
      Except.ok (p.withObjectgroups (p.objectgroups ++ [child]))
    | "Map", "imagelayer" => Except.ok (p.withLayers (p.layers ++ [child]))
    | "Map", "group" => Except.error (PyError.unsupportedFeature [])
    | "Objectgroup", "object" => Except.ok (p.withObjects (p.objects ++ [child]))
    | "Object", "ellipse" => Except.ok (p.withData { p.data with ellipse := true })
    | "Object", "polygon" => ObjectToken_add_shape p child true
    | "Object", "polyline" => ObjectToken_add_shape p child false
    | "Object", "text" => Except.error (PyError.unsupportedFeature [])
    | "Object", "image" => Except.error (PyError.unsupportedFeature [])
    | "Properties", "property" => do
      -- self.dictionary[item.name] = item.value
      let v ← pyGetattrAttr child "value"
      let n ← pyGetattrAttr child "name"
      Except.ok (p.withData
        { p.data with dictionary := pyDictSetV p.data.dictionary n v })
    | "Template", "terrain" =>
      -- TemplateToken.add_terrain appends to self.terrains, which no
      -- initializer ever created: AttributeError
      Except.error PyError.attributeError
    | "Template", "object" => Except.ok (p.withObjects (p.objects ++ [child]))
    | "Terraintypes", "terrain" => Except.ok (p.withTerrains (p.terrains ++ [child]))
    | "Tileset", "tileoffset" => Except.error (PyError.unsupportedFeature [])
    | "Tileset", "grid" => Except.error (PyError.unsupportedFeature [])
    | "Tileset", "image" => Except.ok (p.withImage (Option.some child))
    | "Tileset", "terraintypes" => Except.error (PyError.unsupportedFeature [])
    | "Tileset", "tile" => Except.ok (p.withTiles (p.tiles ++ [child]))
    | "Tileset", "wangsets" => Except.error (PyError.unsupportedFeature [])
    | "Tile", "image" => Except.ok (p.withImage (Option.some child))
    | "Tile", "objectgroup" => Except.error (PyError.unsupportedFeature [])
    | "Tile", "animation" => Except.error (PyError.unsupportedFeature [])
    | k, tg => Except.error (PyError.unsupportedFeature [k ++ "Token", tg])

/- ----------------------------------------------------------------
   Registry and driver (get_processor, slurp)
   ---------------------------------------------------------------- -/

/-- The feature names resolvable by `get_processor`: every module global
named `<feature>Token` — the 26 concrete token classes plus the base
`Token` itself, reachable with the empty feature string. -/
def tokenRegistry : List String :=
  ["Animation", "Chunk", "Data", "Ellipse", "Frame", "Grid", "Group",
   "Imagelayer", "Image", "Layer", "Map", "Objectgroup", "Object", "Point",
   "Polygon", "Polyline", "Properties", "Property", "Template", "Terrain",
   "Terraintypes", "Text", "TileOffset", "TilesetSource", "Tileset", "Tile",
   ""]

/-- `get_processor(feature)`: instantiate `globals()[feature + "Token"]`;
a missing global raises `UnsupportedFeature(feature)`. -/
def get_processor (feature : String) : Except PyError Tok :=
  if tokenRegistry.contains feature then Except.ok (mkToken feature)
  else Except.error (PyError.unsupportedFeature [feature])

/-- The two sax event kinds (`stop` models the "end" event; `end` is a
Lean keyword). -/
inductive EventKind : Type where
  | start : EventKind
  | stop : EventKind
deriving DecidableEq, Repr

/-- One event of the source contract: (event, tag, attrib, text). -/
structure Event : Type where
  kind : EventKind
  tag : String
  attrib : List (String × PyVal)
  text : Option String

/-- One iteration of the `slurp` loop over `(stack, token)`.  On a start
event: resolve the tag, run `start`, push.  On an end event: pop (the
sentinel None at the bottom makes `stack[-1]` raise IndexError when it was
popped), run `end` with the new stack top as parent, and fold the finished
token into a truthy parent with `combine(token, tag.lower())`. -/
def slurpStep (ext : PyExt) (st : List (Option Tok) × Option Tok)
    (ev : Event) : Except PyError (List (Option Tok) × Option Tok) :=
  match ev.kind with
  | EventKind.start => do
    let tok ← get_processor ev.tag
    let tok ← Token_start_dispatch tok ev.attrib
    Except.ok (Option.some tok :: st.1, Option.some tok)
  | EventKind.stop =>
    match st.1 with
    | [] => Except.error PyError.indexError
    | top :: rest =>
      match rest with
      | [] => Except.error PyError.indexError
      | parent :: rest2 =>
        match top with
        | Option.none => Except.error PyError.attributeError
        | Option.some tok => do
          let tok2 ← tokenEnd ext tok ev.text parent
          match parent with
          | Option.some par => do
            let par2 ← Token_combine par tok2 (pyLower ev.tag)
            Except.ok (Option.some par2 :: rest2, Option.some tok2)
          | Option.none => Except.ok (Option.none :: rest2, Option.some tok2)

/-- The state of `slurp` after consuming the whole event stream (the
event source itself does file IO and is modelled by the input list, per
the §6 source contract): the stack, initially `deque([None])`, and the
`token` variable. -/
def slurpState (ext : PyExt) (events : List Event) :
    Except PyError (List (Option Tok) × Option Tok) :=
  events.foldlM (slurpStep ext) ([Option.none], Option.none)

/-- `slurp(path)`: drive the loop, then `pprint.pprint(token.as_object())`
— `as_object` is a pure dict projection, so with an empty stream the only
effect is the AttributeError of `None.as_object()` — and fall off the end
of the function: the `return TiledMap(token)` line is commented out, so
the root token is never returned and the Python function returns None. -/
def slurp (ext : PyExt) (events : List Event) :
    Except PyError (Option Tok) := do
  let st ← slurpState ext events
  match st.2 with
  | Option.none => Except.error PyError.attributeError
  | Option.some _ => Except.ok Option.none

/-- The kind of the `token` variable left by the loop (the finalized root
for a well-formed stream) — used to exhibit that the root is built and
finalized even though `slurp` does not return it. -/
def slurpRootKind (ext : PyExt) (events : List Event) : Option String :=
  match slurpState ext events with
  | Except.ok (_, Option.some t) => Option.some t.kind
  | _ => Option.none

/- ----------------------------------------------------------------
   Concrete inputs used by witnesses and counterexamples
   ---------------------------------------------------------------- -/

/-- A stub for the external stdlib transforms; every use below is on a
code path that never consults them. -/
def extStub : PyExt :=
  PyExt.mk (fun _ => Except.error (PyError.exception "zlib stub"))
    (fun _ => Except.error (PyError.exception "gzip stub"))
    (fun _ => Except.error (PyError.exception "b64 stub"))

/-- A minimal well-formed event stream: one Map node with no attributes. -/
def demoMapEvents : List Event :=
  [Event.mk EventKind.start "Map" [] Option.none,
   Event.mk EventKind.stop "Map" [] Option.none]

/-- A Tile token carrying only a gid attribute, as accumulated by
`DataToken.add_tile`. -/
def demoTile (g : Int) : Tok :=
  (mkToken "Tile").withData
    { (mkToken "Tile").data with attrib := [("gid", PyVal.int g)] }

/- ----------------------------------------------------------------
   Theorems.  Claim C1: the gid codec
   ---------------------------------------------------------------- -/

/-- C1 counterexample: the claim says `decode_gid` returns a pair of the
cleared id and the flag triple.  In the code the flag triple is discarded:
`decode_gid` of an input with bit 31 set returns the same bare integer as
`decode_gid 0`, although the two inputs have different flag triples — so
the returned value cannot contain the flag triple. -/
theorem decode_gid_drops_flags_counterexample :
    decode_gid (2 ^ 31) = 0 ∧ decode_gid 0 = 0 ∧
      decode_gid_flags (2 ^ 31) ≠ decode_gid_flags 0 := by
  decide

/-- C1 amended: for every 32-bit raw gid, `decode_gid` returns only the
tile id — the input with bits 31, 30 and 29 cleared (equivalently
`raw % 2^29` for 32-bit inputs) — while the flag triple computed inside
the function body (true exactly when bits 31, 30, 29 respectively are
set) is discarded, not returned. -/
theorem decode_gid_id_only (raw : Nat) (h : raw < 2 ^ 32) :
    decode_gid raw = raw % 2 ^ 29 ∧
      decode_gid_flags raw =
        TileFlags.mk (decide (2 ^ 31 ≤ raw)) (decide (2 ^ 30 ≤ raw % 2 ^ 31))
          (decide (2 ^ 29 ≤ raw % 2 ^ 30)) := by
  have e32 : (2 : Nat) ^ 32 = 4294967296 := by norm_num
  have e31 : (2 : Nat) ^ 31 = 2147483648 := by norm_num
  have e30 : (2 : Nat) ^ 30 = 1073741824 := by norm_num
  have e29 : (2 : Nat) ^ 29 = 536870912 := by norm_num
  rw [e32] at h
  constructor
  · simp only [decode_gid, GID_TRANS_FLIPX, GID_TRANS_FLIPY, GID_TRANS_ROT,
      Nat.testBit_to_div_mod, Nat.shiftLeft_eq, decide_eq_true_eq, e31, e30, e29]
    norm_num
    split <;> split <;> split <;> omega
  · simp only [decode_gid_flags, TileFlags.mk.injEq, e31, e30, e29,
      Nat.testBit_to_div_mod]
    norm_num
    refine ⟨?_, ?_, ?_⟩ <;> omega

/-- C1 amended witness at the concrete input with bits 31 and 29 set. -/
theorem decode_gid_id_only_witness :
    2684354565 < 2 ^ 32 ∧
      (decode_gid 2684354565 = 2684354565 % 2 ^ 29 ∧
        decode_gid_flags 2684354565 =
          TileFlags.mk (decide (2 ^ 31 ≤ 2684354565))
            (decide (2 ^ 30 ≤ 2684354565 % 2 ^ 31))
            (decide (2 ^ 29 ≤ 2684354565 % 2 ^ 30))) :=
  ⟨by norm_num, decode_gid_id_only 2684354565 (by norm_num)⟩

/- ----------------------------------------------------------------
   Helper lemmas about slicing and reshaping
   ---------------------------------------------------------------- -/

theorem int_toNat_cast (n : Nat) : ((n : Int)).toNat = n := rfl

/-- A Python slice with nonnegative ends is a take-then-drop. -/
theorem pySlice_ofNat {α : Type} (l : List α) (a b : Nat) :
    pySlice l (a : Int) (b : Int) = (l.take b).drop a := by
  unfold pySlice pySliceIdx
  rw [if_neg (by omega), if_neg (by omega)]
  rw [int_toNat_cast, int_toNat_cast]
  have htake : l.take (min b l.length) = l.take b := by
    rcases le_or_lt b l.length with hb | hb
    · rw [min_eq_left hb]
    · rw [min_eq_right hb.le, List.take_of_length_le le_rfl,
        List.take_of_length_le hb.le]
  rw [htake]
  rcases le_or_lt a l.length with ha | ha
  · rw [min_eq_left ha]
  · have hlen : (l.take b).length ≤ l.length := by
      rw [List.length_take]
      exact min_le_right _ _
    rw [min_eq_right ha.le, List.drop_eq_nil_of_le hlen,
      List.drop_eq_nil_of_le (le_trans hlen ha.le)]

theorem pyRange_cast (h : Nat) :
    pyRange (h : Int) = (List.range h).map (fun (i : Nat) => (i : Int)) := rfl

/-- Converting in-range naturals through `array.array("H", ...)` succeeds
and returns them unchanged. -/
theorem arrayH_ofNat (l : List Nat) (hb : ∀ x ∈ l, x < 65536) :
    arrayH (l.map (fun (g : Nat) => PyVal.int (g : Int))) = Except.ok l := by
  induction l with
  | nil => rfl
  | cons x xs ih =>
    have hx : x < 65536 := hb x (List.mem_cons_self _ _)
    have ihx := ih (fun y hy => hb y (List.mem_cons_of_mem _ hy))
    simp only [List.map_cons, arrayH, arrayHItem]
    rw [if_neg (by omega), ihx, int_toNat_cast]

/-- The row generator of `rowify` over nonnegative indices produces
exactly the Python slices `gids[i * w : i * w + w]`. -/
theorem rowifyGo_ofNat (gids : List Nat) (w : Nat)
    (hb : ∀ x ∈ gids, x < 65536) (ns : List Nat) :
    rowifyGo (gids.map (fun (g : Nat) => PyVal.int (g : Int)))
        (PyVal.int (w : Int)) (ns.map (fun (i : Nat) => (i : Int))) =
      Except.ok (ns.map (fun i => (gids.drop (i * w)).take w)) := by
  induction ns with
  | nil => rfl
  | cons i rest ih =>
    simp only [List.map_cons, rowifyGo, pyIndex]
    have hc : ((i : Int)) * ((w : Int)) = ((i * w : Nat) : Int) := by push_cast; ring
    have hc2 : ((i * w : Nat) : Int) + ((w : Int)) = ((i * w + w : Nat) : Int) := by
      push_cast; ring
    rw [hc, hc2, pySlice_ofNat]
    rw [← List.map_take, ← List.map_drop, List.drop_take]
    have hw : i * w + w - i * w = w := by omega
    rw [hw]
    have hbs : ∀ x ∈ (gids.drop (i * w)).take w, x < 65536 := fun x hx =>
      hb x (List.mem_of_mem_drop (List.mem_of_mem_take hx))
    rw [arrayH_ofNat _ hbs, ih]

/-- `rowify` on natural dimensions: no count check of any kind — the
result is always the `h` slices of width `w`, however many ids there are. -/
theorem rowify_ofNat (gids : List Nat) (w h : Nat)
    (hb : ∀ x ∈ gids, x < 65536) :
    rowify (gids.map (fun (g : Nat) => PyVal.int (g : Int)))
        (PyVal.int (w : Int)) (PyVal.int (h : Int)) =
      Except.ok ((List.range h).map (fun i => (gids.drop (i * w)).take w)) := by
  unfold rowify
  simp only [pyIndex]
  rw [pyRange_cast, rowifyGo_ofNat gids w hb (List.range h)]

/-- Row-major chunking followed by flattening restores a list of length
exactly `w * h`. -/
theorem chunks_flatten {α : Type} (w : Nat) :
    ∀ (h : Nat) (l : List α), l.length = w * h →
      ((List.range h).map (fun i => (l.drop (i * w)).take w)).flatten = l := by
  intro h
  induction h with
  | zero =>
    intro l hl
    have : l = [] := List.eq_nil_of_length_eq_zero (by omega)
    simp [this]
  | succ n ih =>
    intro l hl
    rw [List.range_succ_eq_map]
    simp only [List.map_cons, List.map_map, List.flatten_cons]
    have hrow :
        (List.range n).map ((fun i => (l.drop (i * w)).take w) ∘ Nat.succ) =
          (List.range n).map (fun i => ((l.drop w).drop (i * w)).take w) := by
      apply List.map_congr_left
      intro i _
      simp only [Function.comp]
      rw [List.drop_drop]
      have hsw : Nat.succ i * w = w + i * w := by rw [Nat.succ_mul]; omega
      rw [hsw]
    rw [hrow, ih (l.drop w) (by rw [List.length_drop, hl, Nat.mul_succ]; omega)]
    rw [Nat.zero_mul, List.drop_zero, List.take_append_drop]

/-- The `calc_bounds` loop computes running minima and maxima as long as
the accumulators keep the loop invariant `x1 ≤ 0 ≤ x2`, `y1 ≤ 0 ≤ y2`
(which makes the elif chains equivalent to min/max updates). -/
theorem calcBounds_foldl (ps : List (Rat × Rat)) :
    ∀ (x1 x2 y1 y2 : Rat), x1 ≤ 0 → 0 ≤ x2 → y1 ≤ 0 → 0 ≤ y2 →
      ps.foldl calcBoundsStep (x1, x2, y1, y2) =
        ((ps.map Prod.fst).foldl min x1, (ps.map Prod.fst).foldl max x2,
         (ps.map Prod.snd).foldl min y1, (ps.map Prod.snd).foldl max y2) := by
  induction ps with
  | nil => intro x1 x2 y1 y2 _ _ _ _; rfl
  | cons p ps ih =>
    intro x1 x2 y1 y2 h1 h2 h3 h4
    obtain ⟨x, y⟩ := p
    have hstep : calcBoundsStep (x1, x2, y1, y2) (x, y) =
        (min x1 x, max x2 x, min y1 y, max y2 y) := by
      simp only [calcBoundsStep]
      have ex1 : (if x < x1 then x else x1) = min x1 x := by
        rcases lt_or_le x x1 with h | h
        · rw [if_pos h, min_eq_right h.le]
        · rw [if_neg (not_lt.mpr h), min_eq_left h]
      have ex2 : (if x < x1 then x2 else if x2 < x then x else x2) = max x2 x := by
        rcases lt_or_le x x1 with h | h
        · rw [if_pos h, max_eq_left (le_trans (le_trans h.le h1) h2)]
        · rw [if_neg (not_lt.mpr h)]
          rcases lt_or_le x2 x with h5 | h5
          · rw [if_pos h5, max_eq_right h5.le]
          · rw [if_neg (not_lt.mpr h5), max_eq_left h5]
      have ey1 : (if y < y1 then y else y1) = min y1 y := by
        rcases lt_or_le y y1 with h | h
        · rw [if_pos h, min_eq_right h.le]
        · rw [if_neg (not_lt.mpr h), min_eq_left h]
      have ey2 : (if y < y1 then y2 else if y2 < y then y else y2) = max y2 y := by
        rcases lt_or_le y y1 with h | h
        · rw [if_pos h, max_eq_left (le_trans (le_trans h.le h3) h4)]
        · rw [if_neg (not_lt.mpr h)]
          rcases lt_or_le y2 y with h5 | h5
          · rw [if_pos h5, max_eq_right h5.le]
          · rw [if_neg (not_lt.mpr h5), max_eq_left h5]
      rw [ex1, ex2, ey1, ey2]
    rw [List.foldl_cons, hstep,
      ih (min x1 x) (max x2 x) (min y1 y) (max y2 y)
        (le_trans (min_le_left _ _) h1) (le_trans h2 (le_max_left _ _))
        (le_trans (min_le_left _ _) h3) (le_trans h4 (le_max_left _ _))]
    simp [List.foldl_cons]

/-- Casting the resolved attribute list fails as soon as it contains any
non-None value rejected by its declared caster. -/
theorem castAttrs_error_of_mem :
    ∀ (l : List (Attr × PyVal)) (a : Attr) (v : PyVal), (a, v) ∈ l →
      v ≠ PyVal.none → (∃ e, applyCaster a.cls v = Except.error e) →
      ∃ e, castAttrs l = Except.error e := by
  intro l
  induction l with
  | nil => intro a v hm; exact absurd hm (List.not_mem_nil _)
  | cons hd tl ih =>
    intro a v hm hv hcast
    obtain ⟨e, he⟩ := hcast
    obtain ⟨a0, v0⟩ := hd
    rcases List.mem_cons.mp hm with heq | htl
    · rw [Prod.mk.injEq] at heq
      obtain ⟨rfl, rfl⟩ := heq
      refine ⟨e, ?_⟩
      simp only [castAttrs]
      rw [if_neg hv, he]
    · cases hh : (if v0 = PyVal.none then Except.ok v0 else applyCaster a0.cls v0) with
      | error e0 =>
        refine ⟨e0, ?_⟩
        simp only [castAttrs]
        rw [hh]
      | ok v2 =>
        obtain ⟨e1, he1⟩ := ih a v htl hv ⟨e, he⟩
        refine ⟨e1, ?_⟩
        simp only [castAttrs]
        rw [hh, he1]

/- ----------------------------------------------------------------
   Claim C2: what slurp returns
   ---------------------------------------------------------------- -/

/-- C2 (code bug): on the minimal well-formed stream (start Map / end Map)
the loop does leave the finalized Map root in the `token` variable with
exactly the sentinel on the stack, but `slurp` only pretty-prints it: the
`return TiledMap(token)` line is commented out, so the function returns
None instead of the root node the claim (and the spec) promise. -/
theorem slurp_returns_none_not_root :
    slurpRootKind extStub demoMapEvents = Option.some "Map" ∧
      slurp extStub demoMapEvents = Except.ok Option.none :=
  ⟨rfl, rfl⟩

/- ----------------------------------------------------------------
   Claim C3: the csv decoder is not bypassed
   ---------------------------------------------------------------- -/

/-- C3 (code bug): a csv payload of exactly width*height integers does not
decode to the corresponding grid.  `DataToken.end` applies
`unroll_layer_data` unconditionally, and `decode_csv` returns a lazy
`map` object with no `len()`, so the decode crashes with TypeError (for
every choice of the external transforms — the csv path never uses them)
instead of yielding `[[1, 2], [3, 4]]`. -/
theorem DataToken_end_csv_not_bypassed (ext : PyExt) :
    DataToken_end ext (PyVal.str "csv") PyVal.none [] (PyVal.int 2)
      (PyVal.int 2) (Option.some "1,2,3,4") = Except.error PyError.typeError :=
  rfl

/- ----------------------------------------------------------------
   Claim C4: no count check at the reshape step
   ---------------------------------------------------------------- -/

/-- C4 counterexample: a data node with three per-cell tile children under
a 2×2 parent reshapes without any error — the claimed MalformedPayload
does not exist — producing a short second row `[7]`. -/
theorem DataToken_end_short_row_counterexample :
    DataToken_end extStub PyVal.none PyVal.none
        [demoTile 5, demoTile 6, demoTile 7] (PyVal.int 2) (PyVal.int 2)
        (Option.some " ") = Except.ok [[5, 6], [7]] :=
  rfl

/-- C4 amended: the reshape step performs no element-count check at all.
For natural dimensions and in-range ids, `rowify` always succeeds and
returns the `h` Python slices `gids[i*w : i*w + w]`: surplus ids are
silently dropped and missing ids produce short or empty rows. -/
theorem rowify_no_count_check (gids : List Nat) (w h : Nat)
    (hb : ∀ x ∈ gids, x < 65536) :
    rowify (gids.map (fun (g : Nat) => PyVal.int (g : Int)))
        (PyVal.int (w : Int)) (PyVal.int (h : Int)) =
      Except.ok ((List.range h).map (fun i => (gids.drop (i * w)).take w)) :=
  rowify_ofNat gids w h hb

/-- C4 amended witness: three ids reshaped as 2×2 give `[[1,2],[3]]`. -/
theorem rowify_no_count_check_witness :
    (∀ x ∈ ([1, 2, 3] : List Nat), x < 65536) ∧
      rowify (([1, 2, 3] : List Nat).map (fun (g : Nat) => PyVal.int (g : Int)))
          (PyVal.int ((2 : Nat) : Int)) (PyVal.int ((2 : Nat) : Int)) =
        Except.ok ((List.range 2).map
          (fun i => (([1, 2, 3] : List Nat).drop (i * 2)).take 2)) :=
  ⟨by decide, rowify_no_count_check [1, 2, 3] 2 2 (by decide)⟩

/- ----------------------------------------------------------------
   Claim C5: casting failure is a hard error
   ---------------------------------------------------------------- -/

/-- C5: whenever any declared attribute's resolved raw value is non-None
and rejected by its declared caster, `Token.start` propagates the caster's
exception (the code's realization of SchemaViolation) instead of silently
substituting the default. -/
theorem Token_start_cast_failure (schema : List Attr)
    (init : List (String × PyVal)) (a : Attr) (v : PyVal)
    (hmem : (a, v) ∈ resolveAttrs schema init) (hv : v ≠ PyVal.none)
    (hfail : ∃ e, applyCaster a.cls v = Except.error e) :
    ∃ e, Token_start schema init = Except.error e :=
  castAttrs_error_of_mem (resolveAttrs schema init) a v hmem hv hfail

/-- C5 witness: non-numeric text for an integer field errors out. -/
theorem Token_start_cast_failure_witness :
    ∃ e, Token_start [Attr.mk "width" Caster.int PyVal.none "tile width"]
        [("width", PyVal.str "abc")] = Except.error e :=
  Token_start_cast_failure _ _
    (Attr.mk "width" Caster.int PyVal.none "tile width") (PyVal.str "abc")
    (by decide) (by decide) ⟨PyError.valueError, rfl⟩

/- ----------------------------------------------------------------
   Claim C6: the missing-layer-data error
   ---------------------------------------------------------------- -/

/-- C6 counterexample: a data node whose text content is null (the event
contract allows `text = None`, e.g. an XML `<data/>` with no text, and the
JSON loader always passes None) and which has no tile children fails with
AttributeError at `content.strip()`, not with the missing-layer-data
error. -/
theorem DataToken_end_null_content_counterexample :
    DataToken_end extStub PyVal.none PyVal.none [] PyVal.none PyVal.none
      Option.none = Except.error PyError.attributeError :=
  rfl

/-- C6 amended: when the content is a string (of whatever whitespace) and
there are no tile children, finalization fails with the bare
`Exception("no layer data?")` — the code's realization of
MissingLayerData; a null content instead fails earlier with
AttributeError. -/
theorem DataToken_end_missing_data (ext : PyExt)
    (encoding compression wv hv : PyVal) (s : String) (hws : pyStrip s = "") :
    DataToken_end ext encoding compression [] wv hv (Option.some s) =
      Except.error (PyError.exception "no layer data?") := by
  simp [DataToken_end, hws]

/-- C6 amended witness: whitespace-only content, no tiles. -/
theorem DataToken_end_missing_data_witness :
    pyStrip " \n " = "" ∧
      DataToken_end extStub PyVal.none PyVal.none [] PyVal.none PyVal.none
          (Option.some " \n ") =
        Except.error (PyError.exception "no layer data?") :=
  ⟨rfl, DataToken_end_missing_data extStub PyVal.none PyVal.none PyVal.none
    PyVal.none " \n " rfl⟩

/- ----------------------------------------------------------------
   Claim C7: reshape/flatten round trip
   ---------------------------------------------------------------- -/

/-- C7 counterexample: `[65536]` is a flat sequence of exactly 1*1 decoded
tile ids (65536 < 2^29 is a perfectly possible decoded id), yet the
reshape raises OverflowError — the ids are stored in an unsigned-16-bit
`array.array("H")` — so reshape-then-flatten does not reproduce it. -/
theorem rowify_roundtrip_counterexample :
    rowify [PyVal.int 65536] (PyVal.int 1) (PyVal.int 1) =
      Except.error PyError.overflowError :=
  rfl

/-- C7 amended: for every width, height and flat sequence of exactly
`w * h` ids each below 2^16 (the element range of the array typecode the
code uses), reshaping and then flattening in row-major order reproduces
the original sequence exactly. -/
theorem rowify_roundtrip (gids : List Nat) (w h : Nat)
    (hlen : gids.length = w * h) (hb : ∀ x ∈ gids, x < 65536) :
    (rowify (gids.map (fun (g : Nat) => PyVal.int (g : Int)))
        (PyVal.int (w : Int)) (PyVal.int (h : Int))).map List.flatten =
      Except.ok gids := by
  rw [rowify_ofNat gids w h hb]
  simp [Except.map, chunks_flatten w h gids hlen]

/-- C7 amended witness: `[7,8,9,10]` as a 2×2 grid flattens back. -/
theorem rowify_roundtrip_witness :
    ([7, 8, 9, 10] : List Nat).length = 2 * 2 ∧
      (rowify (([7, 8, 9, 10] : List Nat).map
            (fun (g : Nat) => PyVal.int (g : Int)))
          (PyVal.int ((2 : Nat) : Int)) (PyVal.int ((2 : Nat) : Int))).map
          List.flatten =
        Except.ok ([7, 8, 9, 10] : List Nat) :=
  ⟨rfl, rowify_roundtrip [7, 8, 9, 10] 2 2 rfl (by decide)⟩

/- ----------------------------------------------------------------
   Claim C8: origin-relative bounds
   ---------------------------------------------------------------- -/

/-- C8: for every point list, `calc_bounds` returns per axis the sum of
the absolute extents from the origin in both directions (not extents
relative to the point set's own minimum), and in particular
`calc_bounds [(-3,2),(4,-1)] = (7,3)`. -/
theorem calc_bounds_origin_relative :
    (∀ ps : List (Rat × Rat), calc_bounds ps = bounds_spec ps) ∧
      calc_bounds [(-3, 2), (4, -1)] = (7, 3) := by
  constructor
  · intro ps
    unfold calc_bounds bounds_spec
    rw [calcBounds_foldl ps 0 0 0 0 le_rfl le_rfl le_rfl le_rfl]
  · norm_num [calc_bounds, calcBoundsStep, List.foldl]

/- ----------------------------------------------------------------
   Claim C9: unknown tags
   ---------------------------------------------------------------- -/

/-- C9: resolving a tag absent from the registry fails with
`UnsupportedFeature` carrying that tag name, and `slurp` on a stream whose
first event submits such a tag aborts with that same error — no root is
ever constructed. -/
theorem get_processor_unknown_tag (tag : String)
    (h : tokenRegistry.contains tag = false) :
    get_processor tag = Except.error (PyError.unsupportedFeature [tag]) ∧
      slurp extStub [Event.mk EventKind.start tag [] Option.none] =
        Except.error (PyError.unsupportedFeature [tag]) := by
  have hg : get_processor tag = Except.error (PyError.unsupportedFeature [tag]) := by
    unfold get_processor
    rw [h]
    rfl
  refine ⟨hg, ?_⟩
  simp only [slurp, slurpState, slurpStep, List.foldlM]
  rw [hg]
  rfl

/-- C9 witness: the unregistered tag "Wangsets". -/
theorem get_processor_unknown_tag_witness :
    tokenRegistry.contains "Wangsets" = false ∧
      (get_processor "Wangsets" =
          Except.error (PyError.unsupportedFeature ["Wangsets"]) ∧
        slurp extStub [Event.mk EventKind.start "Wangsets" [] Option.none] =
          Except.error (PyError.unsupportedFeature ["Wangsets"])) :=
  ⟨rfl, get_processor_unknown_tag "Wangsets" rfl⟩

/- ----------------------------------------------------------------
   Claim C10: no fallback from attributes to properties
   ---------------------------------------------------------------- -/

/-- C10: reading an attribute name that is neither a real instance
attribute nor a key of the coerced attribute dict raises AttributeError,
for every token state — in particular the lookup never falls back to the
separately stored `properties` dict, even when it holds that name. -/
theorem Token_getattr_no_properties_fallback (t : TokenNamespace)
    (name : String) (h1 : t.instanceAttrs.contains name = false)
    (h2 : pyDictGet t.attrib name = Option.none) :
    getattrFull t name = AttrLookup.error PyError.attributeError := by
  unfold getattrFull
  rw [h1]
  simp [Token_getattr, h2]

/-- C10 witness: a token whose `properties` dict holds the looked-up name
still raises AttributeError. -/
theorem Token_getattr_no_properties_fallback_witness :
    (TokenNamespace.mk ["attrib", "properties", "attrib_types"] []
        [("spam", PyVal.int 1)]).instanceAttrs.contains "spam" = false ∧
      getattrFull
          (TokenNamespace.mk ["attrib", "properties", "attrib_types"] []
            [("spam", PyVal.int 1)]) "spam" =
        AttrLookup.error PyError.attributeError :=
  ⟨rfl, Token_getattr_no_properties_fallback _ "spam" rfl rfl⟩
